import Mathlib

/-!
Verification of the semantic todo store (Electron main process, `main.js`).

The five IPC handlers (`add-todo`, `get-todos`, `search-todos`, `update-todo`,
`delete-todo`) are embedded as pure Lean functions over an explicit store
state.  Vectors and the embedding model are black boxes (spec §4.1), so the
development is parametric in a vector type `V`, an embedding function
`embed : String → V` and a distance function `dist : V → V → Int` (the real
distances are floats; only their ordering matters to the claims, so an
ordered abstract score type is used).  Timestamps are milliseconds since the
epoch, represented as `Int`.

The LanceDB table (`vectordb` package) is an external library, not part of
this repository; its operations (`add`, `delete`, `search` with `where`,
`limit`, `select`, `execute`) are modelled from the spec's Record Table
contract (§4.3) over a list of rows.
-/

namespace TodoStore

/-- A stored row: schema `{vector, text, id, timestamp}` from `initializeApp`. -/
structure TodoRecord (V : Type) where
  id : String
  text : String
  vector : V
  timestamp : Int
deriving Repr, DecidableEq

/-- A record as returned to callers by `add-todo`, `get-todos` and
`update-todo`: only `id`, `text`, `timestamp` — no vector field. -/
structure TodoView where
  id : String
  text : String
  timestamp : Int
deriving Repr, DecidableEq

/-- A record as returned to callers by `search-todos`: `id`, `text`,
`timestamp` and `score` (the raw `_distance`) — no vector field. -/
structure SearchView where
  id : String
  text : String
  timestamp : Int
  score : Int
deriving Repr, DecidableEq

/-- Result shape of `add-todo` and `update-todo`. -/
structure AddResult where
  success : Bool
  item : Option TodoView
  error : Option String
deriving Repr, DecidableEq

/-- Result shape of `get-todos`. -/
structure ListResult where
  success : Bool
  todos : List TodoView
  error : Option String
deriving Repr, DecidableEq

/-- Result shape of `search-todos`. -/
structure SearchResult where
  success : Bool
  results : List SearchView
  error : Option String
deriving Repr, DecidableEq

/-- Result shape of `delete-todo`. -/
structure DeleteResult where
  success : Bool
  id : Option String
  error : Option String
deriving Repr, DecidableEq

/-- Result shape of `seed-demo-data`. -/
structure SeedResult where
  success : Bool
  count : Option Nat
  error : Option String
deriving Repr, DecidableEq

/-- The process-wide mutable handles of `main.js`: `embedder` and `table`
modelled as readiness flags, plus the table contents.  `rows` is the live
row multiset of the LanceDB table (order is the table's internal order,
unspecified by the spec's Record Table layer §4.3). -/
structure StoreState (V : Type) where
  embedderReady : Bool
  tableReady : Bool
  rows : List (TodoRecord V)
deriving Repr, DecidableEq

/-- Modelled from the spec: Record Table `append` (§4.3) — `table.add(items)`
adds the records; no uniqueness check at this layer. -/
def tableAdd {V : Type} (rows items : List (TodoRecord V)) : List (TodoRecord V) :=
  rows ++ items

/-- Modelled from the spec: Record Table `deleteWhere` (§4.3) at the predicate
`id = "x"` used by `update-todo` and `delete-todo` — removes all rows whose
`id` matches; a non-matching delete is a no-op. -/
def tableDeleteById {V : Type} (rows : List (TodoRecord V)) (i : String) :
    List (TodoRecord V) :=
  rows.filter (fun r => r.id ≠ i)

/-- Modelled from the spec: Record Table `scanAll(limit)` (§4.3) — up to
`limit` rows, no similarity ranking, order unspecified by this layer
(modelled as the table's internal row order). -/
def tableScan {V : Type} (rows : List (TodoRecord V)) (limit : Nat) :
    List (TodoRecord V) :=
  rows.take limit

/-- Ordering of (row, distance) pairs by ascending distance. -/
def scoreLe {V : Type} (a b : TodoRecord V × Int) : Prop :=
  a.2 ≤ b.2

instance {V : Type} : DecidableRel (@scoreLe V) :=
  fun a b => inferInstanceAs (Decidable (a.2 ≤ b.2))

instance {V : Type} : IsTotal (TodoRecord V × Int) scoreLe :=
  ⟨fun a b => Int.le_total a.2 b.2⟩

instance {V : Type} : IsTrans (TodoRecord V × Int) scoreLe :=
  ⟨fun _ _ _ hab hbc => Int.le_trans hab hbc⟩

/-- Modelled from the spec: Record Table `searchNearest(queryVector, limit,
optionalPredicate)` (§4.3) — the `limit` rows satisfying the predicate whose
vectors are nearest to the query vector, ascending by distance, each paired
with its raw distance. -/
def tableSearchNearest {V : Type} (dist : V → V → Int) (rows : List (TodoRecord V))
    (qv : V) (pred : TodoRecord V → Bool) (limit : Nat) :
    List (TodoRecord V × Int) :=
  (List.insertionSort scoreLe
    ((rows.filter pred).map (fun r => (r, dist qv r.vector)))).take limit

/-- Projection dropping the vector: the `.select(["id", "text", "timestamp"])`
plus the explicit `map` in `get-todos`. -/
def stripVector {V : Type} (r : TodoRecord V) : TodoView :=
  { id := r.id, text := r.text, timestamp := r.timestamp }

/-- Descending-timestamp order on views: the comparator
`(a, b) => b.timestamp - a.timestamp` of `get-todos`. -/
def tsGe (a b : TodoView) : Prop :=
  b.timestamp ≤ a.timestamp

instance : DecidableRel tsGe :=
  fun a b => inferInstanceAs (Decidable (b.timestamp ≤ a.timestamp))

instance : IsTotal TodoView tsGe :=
  ⟨fun a b => Int.le_total b.timestamp a.timestamp⟩

instance : IsTrans TodoView tsGe :=
  ⟨fun _ _ _ hab hbc => Int.le_trans hbc hab⟩

/-- JavaScript `String.prototype.trim`: strip leading and trailing
whitespace. -/
def jsTrim (s : String) : String :=
  String.mk
    (((s.toList.dropWhile Char.isWhitespace).reverse.dropWhile
        Char.isWhitespace).reverse)

/-- The not-ready error message of `add-todo`, `search-todos`, `update-todo`. -/
def notReadyBothMsg : String := "Database or embedder not initialized."

/-- The not-ready error message of `get-todos` and `delete-todo`. -/
def notReadyTableMsg : String := "Database not initialized."

/-- IPC handler `add-todo`: guard on `!table || !embedder`; embed the text,
make a fresh id and timestamp, append one row, return the item without its
vector.  The fresh id and the clock are passed in (`nanoid()` / `Date.now()`). -/
def addTodo {V : Type} (embed : String → V) (s : StoreState V)
    (newId : String) (now : Int) (todoText : String) :
    AddResult × StoreState V :=
  if s.tableReady && s.embedderReady then
    let vector := embed todoText
    let todoItem : TodoRecord V :=
      { id := newId, text := todoText, vector := vector, timestamp := now }
    ({ success := true,
       item := some { id := todoItem.id, text := todoItem.text,
                      timestamp := todoItem.timestamp },
       error := none },
     { s with rows := tableAdd s.rows [todoItem] })
  else
    ({ success := false, item := none, error := some notReadyBothMsg }, s)

/-- IPC handler `get-todos`: guard on `!table`; scan up to 500 rows, project
to `{id, text, timestamp}`, sort by timestamp descending (newest first). -/
def getTodos {V : Type} (s : StoreState V) : ListResult × StoreState V :=
  if s.tableReady then
    let results := tableScan s.rows 500
    let todos := List.insertionSort tsGe (results.map stripVector)
    ({ success := true, todos := todos, error := none }, s)
  else
    ({ success := false, todos := [], error := some notReadyTableMsg }, s)

/-- `400`-year leap rule, as in the proleptic Gregorian calendar used by
ECMAScript `Date`. -/
def isLeapYear (y : Int) : Bool :=
  (y % 4 == 0 && y % 100 != 0) || y % 400 == 0

/-- Days in a month of the proleptic Gregorian calendar. -/
def daysInMonth (y m : Int) : Int :=
  if m = 2 then (if isLeapYear y then 29 else 28)
  else if m = 4 ∨ m = 6 ∨ m = 9 ∨ m = 11 then 30
  else 31

/-- Days from 1970-01-01 to the civil date `y-m-d` (proleptic Gregorian). -/
def daysFromCivil (y m d : Int) : Int :=
  let y' := if m ≤ 2 then y - 1 else y
  let era := (if 0 ≤ y' then y' else y' - 399) / 400
  let yoe := y' - era * 400
  let mp := if 2 < m then m - 3 else m + 9
  let doy := (153 * mp + 2) / 5 + (d - 1)
  let doe := yoe * 365 + yoe / 4 - yoe / 100 + doy
  era * 146097 + doe - 719468

/-- The numeric value of a decimal digit character, if it is one. -/
def digitVal (c : Char) : Option Int :=
  if c.isDigit then some ((c.toNat : Int) - 48) else none

/-- Modelled from the spec: the ECMAScript date-time parse of
`"YYYY-MM-DD" + "T..."` (the handler's comment: expected format YYYY-MM-DD).
Returns the calendar date when the string is a well-formed, valid
`YYYY-MM-DD`; `none` stands for an invalid date (`NaN` timestamp). -/
def parseYmd (s : String) : Option (Int × Int × Int) :=
  match s.toList with
  | [y1, y2, y3, y4, h1, m1, m2, h2, d1, d2] =>
    if h1 = '-' ∧ h2 = '-' then
      match digitVal y1, digitVal y2, digitVal y3, digitVal y4,
            digitVal m1, digitVal m2, digitVal d1, digitVal d2 with
      | some a, some b, some c, some d, some e, some f, some g, some h =>
        let y := a * 1000 + b * 100 + c * 10 + d
        let m := e * 10 + f
        let dd := g * 10 + h
        if 1 ≤ m ∧ m ≤ 12 ∧ 1 ≤ dd ∧ dd ≤ daysInMonth y m then
          some (y, m, dd)
        else none
      | _, _, _, _, _, _, _, _ => none
    else none
  | _ => none

/-- `new Date(startDate + "T00:00:00.000Z").getTime()`: midnight UTC of the
start date, in ms; `none` models `NaN`. -/
def startOfDayMs (s : String) : Option Int :=
  (parseYmd s).map (fun t => daysFromCivil t.1 t.2.1 t.2.2 * 86400000)

/-- `new Date(endDate + "T23:59:59.999Z").getTime()`: last millisecond UTC of
the end date; `none` models `NaN`. -/
def endOfDayMs (s : String) : Option Int :=
  (parseYmd s).map (fun t => daysFromCivil t.1 t.2.1 t.2.2 * 86400000 + 86399999)

/-- The start bound actually pushed onto `filters`: absent when the argument
is missing or falsy (`""`), or when its timestamp is `NaN`. -/
def effStartMs (startDate : Option String) : Option Int :=
  match startDate with
  | none => none
  | some s => if s = "" then none else startOfDayMs s

/-- The end bound actually pushed onto `filters`. -/
def effEndMs (endDate : Option String) : Option Int :=
  match endDate with
  | none => none
  | some s => if s = "" then none else endOfDayMs s

/-- The `where` predicate built from `filters.join(" AND ")`:
`timestamp >= startMs AND timestamp <= endMs`, each conjunct present exactly
when its bound was pushed; no `where` call at all (every row passes) when
both are absent. -/
def searchFilter {V : Type} (startMs endMs : Option Int) (r : TodoRecord V) : Bool :=
  (match startMs with
   | some sm => decide (sm ≤ r.timestamp)
   | none => true) &&
  (match endMs with
   | some em => decide (r.timestamp ≤ em)
   | none => true)

/-- IPC handler `search-todos`: guard on `!table || !embedder`; short-circuit
on an empty (or all-whitespace) query; otherwise embed the query, build the
date filter, run nearest-neighbour search with limit 10, and map each hit to
`{id, text, timestamp, score: r._distance}`. -/
def searchTodos {V : Type} (embed : String → V) (dist : V → V → Int)
    (s : StoreState V) (query : String) (startDate endDate : Option String) :
    SearchResult × StoreState V :=
  if s.tableReady && s.embedderReady then
    if jsTrim query = "" then
      ({ success := true, results := [], error := none }, s)
    else
      let queryVector := embed query
      let sm := effStartMs startDate
      let em := effEndMs endDate
      let raw := tableSearchNearest dist s.rows queryVector (searchFilter sm em) 10
      let searchResults := raw.map (fun p =>
        { id := p.1.id, text := p.1.text, timestamp := p.1.timestamp,
          score := p.2 : SearchView })
      ({ success := true, results := searchResults, error := none }, s)
  else
    ({ success := false, results := [], error := some notReadyBothMsg }, s)

/-- IPC handler `update-todo`: guard on `!table || !embedder`; embed the new
text, take a fresh timestamp, delete the old row by id, append the
replacement row under the same id, and return `{id, text, timestamp}`. -/
def updateTodo {V : Type} (embed : String → V) (s : StoreState V)
    (todoId newText : String) (now : Int) :
    AddResult × StoreState V :=
  if s.tableReady && s.embedderReady then
    let newVector := embed newText
    let updatedTodoItemData : TodoRecord V :=
      { id := todoId, text := newText, vector := newVector, timestamp := now }
    ({ success := true,
       item := some { id := todoId, text := newText, timestamp := now },
       error := none },
     { s with rows := tableAdd (tableDeleteById s.rows todoId) [updatedTodoItemData] })
  else
    ({ success := false, item := none, error := some notReadyBothMsg }, s)

/-- IPC handler `delete-todo`: guard on `!table` only; delete by id (a no-op
when absent) and echo the id back. -/
def deleteTodo {V : Type} (s : StoreState V) (todoId : String) :
    DeleteResult × StoreState V :=
  if s.tableReady then
    ({ success := true, id := some todoId, error := none },
     { s with rows := tableDeleteById s.rows todoId })
  else
    ({ success := false, id := none, error := some notReadyTableMsg }, s)

/-- The rotating subjects of the demo texts in `seed-demo-data`. -/
def seedSubjects : List String :=
  ["Mars", "Jupiter", "Saturn", "ancient ruins", "deep sea"]

/-- The text of the `i`-th demo todo: the template literal
`Demo task ${i + 1}: Explore ${subject[i % 5]} with keyword ${nanoid(6)}`,
with the generated keyword passed in. -/
def seedText (i : Nat) (kw : String) : String :=
  "Demo task " ++ toString (i + 1) ++ ": Explore " ++
    seedSubjects.getD (i % 5) "" ++ " with keyword " ++ kw

/-- The not-ready error message of `seed-demo-data`. -/
def notReadySeedMsg : String :=
  "Core components (DB, embedder, nanoid) not initialized."

/-- IPC handler `seed-demo-data`: guard on `!table || !embedder || !nanoidFn`
(the id generator is a function argument of the model, so only the two
handles remain to check); build 100 demo todos from the text template,
embed each text, and append them all with one `table.add`.  The generated
ids, keywords and random timestamps are passed in as functions of the
index. -/
def seedDemoData {V : Type} (embed : String → V) (s : StoreState V)
    (ids kws : Nat → String) (times : Nat → Int) :
    SeedResult × StoreState V :=
  if s.tableReady && s.embedderReady then
    let demoTodos := (List.range 100).map (fun i =>
      ({ id := ids i, text := seedText i (kws i),
         vector := embed (seedText i (kws i)), timestamp := times i } :
        TodoRecord V))
    ({ success := true, count := some demoTodos.length, error := none },
     { s with rows := tableAdd s.rows demoTodos })
  else
    ({ success := false, count := none, error := some notReadySeedMsg }, s)

/-- Renderer `addTodoBtn` click handler: trims the input and only calls
`add-todo` when the trimmed text is non-empty. -/
def clickAddTodo {V : Type} (embed : String → V) (s : StoreState V)
    (newId : String) (now : Int) (inputValue : String) : StoreState V :=
  let text := jsTrim inputValue
  if text = "" then s else (addTodo embed s newId now text).2

/-- Renderer `updateTodoBtn` click handler: trims the input, bails out when
the editing id or the trimmed text is empty or the text is unchanged, and
otherwise calls `update-todo`. -/
def clickUpdateTodo {V : Type} (embed : String → V) (s : StoreState V)
    (editingId inputValue : String) (originalText : Option String)
    (now : Int) : StoreState V :=
  let newText := jsTrim inputValue
  if editingId = "" ∨ newText = "" then s
  else if originalText = some newText then s
  else (updateTodo embed s editingId newText now).2

/-- The state at process start: neither handle assigned, empty table (the
create-table path of `initializeApp` deletes its seed row, leaving an empty
table). -/
def initialState (V : Type) : StoreState V :=
  { embedderReady := false, tableReady := false, rows := [] }

/-- One step of the store's lifecycle at the IPC level: the two assignments
of `initializeApp` (the embedder is assigned before the table) and the five
handlers with arbitrary arguments. -/
inductive StoreStep {V : Type} (embed : String → V) (dist : V → V → Int) :
    StoreState V → StoreState V → Prop where
  | assignEmbedder (s : StoreState V) :
      StoreStep embed dist s { s with embedderReady := true }
  | assignTable (s : StoreState V) (h : s.embedderReady = true) :
      StoreStep embed dist s { s with tableReady := true }
  | stepAdd (s : StoreState V) (i : String) (n : Int) (t : String) :
      StoreStep embed dist s (addTodo embed s i n t).2
  | stepList (s : StoreState V) :
      StoreStep embed dist s (getTodos s).2
  | stepSearch (s : StoreState V) (q : String) (sd ed : Option String) :
      StoreStep embed dist s (searchTodos embed dist s q sd ed).2
  | stepUpdate (s : StoreState V) (i t : String) (n : Int) :
      StoreStep embed dist s (updateTodo embed s i t n).2
  | stepDelete (s : StoreState V) (i : String) :
      StoreStep embed dist s (deleteTodo s i).2

/-- Zero or more lifecycle steps. -/
inductive Reaches {V : Type} (embed : String → V) (dist : V → V → Int) :
    StoreState V → StoreState V → Prop where
  | refl (s : StoreState V) : Reaches embed dist s s
  | tail {s s' s'' : StoreState V} (h1 : Reaches embed dist s s')
      (h2 : StoreStep embed dist s' s'') : Reaches embed dist s s''

/-- States reachable in a process lifetime. -/
def Reachable {V : Type} (embed : String → V) (dist : V → V → Int)
    (s : StoreState V) : Prop :=
  Reaches embed dist (initialState V) s

/-- One step of the store's lifecycle at the UI level: mutations go through
the renderer's guarded click handlers for add and update, the delete
button, and the seed button (which invokes `seed-demo-data` directly). -/
inductive AppStep {V : Type} (embed : String → V) :
    StoreState V → StoreState V → Prop where
  | assignEmbedder (s : StoreState V) :
      AppStep embed s { s with embedderReady := true }
  | assignTable (s : StoreState V) (h : s.embedderReady = true) :
      AppStep embed s { s with tableReady := true }
  | uiAdd (s : StoreState V) (i : String) (n : Int) (input : String) :
      AppStep embed s (clickAddTodo embed s i n input)
  | uiUpdate (s : StoreState V) (eid input : String) (orig : Option String) (n : Int) :
      AppStep embed s (clickUpdateTodo embed s eid input orig n)
  | uiDelete (s : StoreState V) (i : String) :
      AppStep embed s (deleteTodo s i).2
  | uiSeed (s : StoreState V) (ids kws : Nat → String) (times : Nat → Int) :
      AppStep embed s (seedDemoData embed s ids kws times).2

/-- States reachable in a process lifetime when all mutations come through
the renderer. -/
inductive AppReachable {V : Type} (embed : String → V) : StoreState V → Prop where
  | init : AppReachable embed (initialState V)
  | tail {s s' : StoreState V} (h1 : AppReachable embed s)
      (h2 : AppStep embed s s') : AppReachable embed s'

/-- Ascending-score order on search results. -/
def svLe (a b : SearchView) : Prop :=
  a.score ≤ b.score

/-- A concrete instantiation of the abstract embedding for exercising the
theorems: vectors are naturals, the embedding is the text length. -/
def demoEmbed (t : String) : Nat :=
  t.length

/-- A concrete distance on the demo vectors. -/
def demoDist (a b : Nat) : Int :=
  ((a : Int) - (b : Int)).natAbs

/-- Two concrete rows. -/
def demoRows : List (TodoRecord Nat) :=
  [{ id := "a", text := "buy milk", vector := 8, timestamp := 5 },
   { id := "b", text := "buy bread", vector := 9, timestamp := 6 }]

/-- A concrete fully assigned store holding `demoRows`. -/
def demoState : StoreState Nat :=
  { embedderReady := true, tableReady := true, rows := demoRows }

/-- A concrete fully assigned empty store. -/
def readyState : StoreState Nat :=
  { embedderReady := true, tableReady := true, rows := [] }

/-- A row on 2024-01-14 UTC. -/
def dayr1 : TodoRecord Nat :=
  { id := "t1", text := "task one", vector := 1, timestamp := 1705190400000 }

/-- A row on 2024-01-15 UTC. -/
def dayr2 : TodoRecord Nat :=
  { id := "t2", text := "task two", vector := 2, timestamp := 1705300000000 }

/-- A row on 2024-01-16 UTC. -/
def dayr3 : TodoRecord Nat :=
  { id := "t3", text := "task three", vector := 3, timestamp := 1705400000000 }

/-- A concrete store with one row on each of three consecutive days. -/
def dayState : StoreState Nat :=
  { embedderReady := true, tableReady := true, rows := [dayr1, dayr2, dayr3] }

theorem addTodo_flags {V : Type} (embed : String → V) (s : StoreState V)
    (i : String) (n : Int) (t : String) :
    ((addTodo embed s i n t).2).embedderReady = s.embedderReady ∧
    ((addTodo embed s i n t).2).tableReady = s.tableReady := by
  unfold addTodo
  split <;> simp

theorem getTodos_snd {V : Type} (s : StoreState V) : (getTodos s).2 = s := by
  unfold getTodos
  split <;> rfl

theorem searchTodos_snd {V : Type} (embed : String → V) (dist : V → V → Int)
    (s : StoreState V) (q : String) (sd ed : Option String) :
    (searchTodos embed dist s q sd ed).2 = s := by
  unfold searchTodos
  split
  · split <;> rfl
  · rfl

theorem updateTodo_flags {V : Type} (embed : String → V) (s : StoreState V)
    (i t : String) (n : Int) :
    ((updateTodo embed s i t n).2).embedderReady = s.embedderReady ∧
    ((updateTodo embed s i t n).2).tableReady = s.tableReady := by
  unfold updateTodo
  split <;> simp

theorem deleteTodo_flags {V : Type} (s : StoreState V) (i : String) :
    ((deleteTodo s i).2).embedderReady = s.embedderReady ∧
    ((deleteTodo s i).2).tableReady = s.tableReady := by
  unfold deleteTodo
  split <;> simp

/-- Every lifecycle step preserves an assigned handle: nothing ever unsets
`table` or `embedder`. -/
theorem storeStep_mono {V : Type} {embed : String → V} {dist : V → V → Int}
    {s s' : StoreState V} (h : StoreStep embed dist s s') :
    (s.embedderReady = true → s'.embedderReady = true) ∧
    (s.tableReady = true → s'.tableReady = true) := by
  cases h with
  | assignEmbedder => exact ⟨fun _ => rfl, fun h => h⟩
  | assignTable h => exact ⟨fun h => h, fun _ => rfl⟩
  | stepAdd i n t =>
    exact ⟨fun h => ((addTodo_flags embed s i n t).1).symm ▸ h,
           fun h => ((addTodo_flags embed s i n t).2).symm ▸ h⟩
  | stepList => rw [getTodos_snd]; exact ⟨fun h => h, fun h => h⟩
  | stepSearch q sd ed =>
    rw [searchTodos_snd]; exact ⟨fun h => h, fun h => h⟩
  | stepUpdate i t n =>
    exact ⟨fun h => ((updateTodo_flags embed s i t n).1).symm ▸ h,
           fun h => ((updateTodo_flags embed s i t n).2).symm ▸ h⟩
  | stepDelete i =>
    exact ⟨fun h => ((deleteTodo_flags s i).1).symm ▸ h,
           fun h => ((deleteTodo_flags s i).2).symm ▸ h⟩

/-- In any reachable state, an assigned table implies an assigned embedder:
`initializeApp` assigns the embedder first. -/
theorem reachable_table_imp_embedder {V : Type} {embed : String → V}
    {dist : V → V → Int} {s : StoreState V}
    (h : Reachable embed dist s) : s.tableReady = true → s.embedderReady = true := by
  induction h with
  | refl => exact fun h => absurd h (by simp [initialState])
  | tail h1 h2 ih =>
    cases h2 with
    | assignEmbedder => exact fun _ => rfl
    | assignTable h => exact fun _ => h
    | stepAdd i n t =>
      rw [(addTodo_flags embed _ i n t).1, (addTodo_flags embed _ i n t).2]
      exact ih
    | stepList => rw [getTodos_snd]; exact ih
    | stepSearch q sd ed => rw [searchTodos_snd]; exact ih
    | stepUpdate i t n =>
      rw [(updateTodo_flags embed _ i t n).1, (updateTodo_flags embed _ i t n).2]
      exact ih
    | stepDelete i =>
      rw [(deleteTodo_flags _ i).1, (deleteTodo_flags _ i).2]
      exact ih

theorem mem_tableDeleteById {V : Type} {rows : List (TodoRecord V)} {i : String}
    {r : TodoRecord V} (h : r ∈ tableDeleteById rows i) : r ∈ rows ∧ r.id ≠ i := by
  unfold tableDeleteById at h
  have h' := List.mem_filter.mp h
  exact ⟨h'.1, by simpa using h'.2⟩

theorem tableDeleteById_idem {V : Type} (rows : List (TodoRecord V)) (i : String) :
    tableDeleteById (tableDeleteById rows i) i = tableDeleteById rows i := by
  simp [tableDeleteById, List.filter_filter]

theorem tableDeleteById_of_absent {V : Type} {rows : List (TodoRecord V)} {i : String}
    (h : ∀ r ∈ rows, r.id ≠ i) : tableDeleteById rows i = rows := by
  unfold tableDeleteById
  exact List.filter_eq_self.mpr (fun r hr => by simpa using h r hr)

theorem getTodos_todos_eq {V : Type} {s : StoreState V} (h : s.tableReady = true) :
    (getTodos s).1.todos =
      List.insertionSort tsGe ((s.rows.take 500).map stripVector) := by
  simp [getTodos, h, tableScan]

theorem mem_getTodos {V : Type} {s : StoreState V} (h : s.tableReady = true)
    {v : TodoView} (hv : v ∈ (getTodos s).1.todos) :
    ∃ r ∈ s.rows, v = stripVector r := by
  rw [getTodos_todos_eq h, List.mem_insertionSort] at hv
  obtain ⟨r, hr, rfl⟩ := List.mem_map.mp hv
  exact ⟨r, List.mem_of_mem_take hr, rfl⟩

theorem mem_getTodos_of_mem_rows {V : Type} {s : StoreState V}
    (h : s.tableReady = true) (hlen : s.rows.length ≤ 500) {r : TodoRecord V}
    (hr : r ∈ s.rows) : stripVector r ∈ (getTodos s).1.todos := by
  rw [getTodos_todos_eq h, List.mem_insertionSort, List.take_of_length_le hlen]
  exact List.mem_map.mpr ⟨r, hr, rfl⟩

theorem searchTodos_results_eq {V : Type} {embed : String → V} {dist : V → V → Int}
    {s : StoreState V} {query : String} {sd ed : Option String}
    (ht : s.tableReady = true) (he : s.embedderReady = true)
    (hq : ¬ jsTrim query = "") :
    (searchTodos embed dist s query sd ed).1.results =
      (tableSearchNearest dist s.rows (embed query)
          (searchFilter (effStartMs sd) (effEndMs ed)) 10).map
        (fun p => { id := p.1.id, text := p.1.text, timestamp := p.1.timestamp,
                    score := p.2 }) := by
  simp [searchTodos, ht, he, hq]

theorem mem_tableSearchNearest {V : Type} {dist : V → V → Int}
    {rows : List (TodoRecord V)} {qv : V} {pred : TodoRecord V → Bool}
    {limit : Nat} {p : TodoRecord V × Int}
    (hp : p ∈ tableSearchNearest dist rows qv pred limit) :
    p.1 ∈ rows ∧ pred p.1 = true ∧ p.2 = dist qv p.1.vector := by
  unfold tableSearchNearest at hp
  have hp' := List.mem_of_mem_take hp
  rw [List.mem_insertionSort] at hp'
  obtain ⟨r, hr, rfl⟩ := List.mem_map.mp hp'
  have h' := List.mem_filter.mp hr
  exact ⟨h'.1, h'.2, rfl⟩

theorem tableSearchNearest_sorted {V : Type} (dist : V → V → Int)
    (rows : List (TodoRecord V)) (qv : V) (pred : TodoRecord V → Bool)
    (limit : Nat) :
    List.Sorted scoreLe (tableSearchNearest dist rows qv pred limit) := by
  unfold tableSearchNearest
  exact (List.sorted_insertionSort scoreLe _).sublist (List.take_sublist _ _)

theorem tableSearchNearest_length {V : Type} (dist : V → V → Int)
    (rows : List (TodoRecord V)) (qv : V) (pred : TodoRecord V → Bool)
    (limit : Nat) :
    (tableSearchNearest dist rows qv pred limit).length ≤ limit := by
  unfold tableSearchNearest
  exact List.length_take_le _ _

theorem effStartMs_of_invalid {sd : String} (h : startOfDayMs sd = none) :
    effStartMs (some sd) = none := by
  by_cases h' : sd = "" <;> simp [effStartMs, h', h]

theorem effEndMs_of_invalid {ed : String} (h : endOfDayMs ed = none) :
    effEndMs (some ed) = none := by
  by_cases h' : ed = "" <;> simp [effEndMs, h', h]

/-- C2: for every query that the store treats as empty (empty or
all-whitespace after trim), `search-todos` returns `{success: true,
results: []}` with the state untouched, and the result is the same for
every embedding function, distance function and table contents — the
embedder is not invoked and the table is not consulted. -/
theorem c2_empty_query_short_circuit {V : Type} (embed : String → V)
    (dist : V → V → Int) (s : StoreState V) (query : String)
    (startDate endDate : Option String)
    (ht : s.tableReady = true) (he : s.embedderReady = true)
    (hq : jsTrim query = "") :
    searchTodos embed dist s query startDate endDate =
      ({ success := true, results := [], error := none }, s) := by
  simp [searchTodos, ht, he, hq]

theorem c2_empty_query_short_circuit_witness :
    searchTodos demoEmbed demoDist demoState " " (some "2024-01-15") none =
      ({ success := true, results := [], error := none }, demoState) :=
  c2_empty_query_short_circuit demoEmbed demoDist demoState " "
    (some "2024-01-15") none rfl rfl (by decide)

/-- C4: `delete-todo` succeeds and echoes the id back whether or not a row
with that id exists; afterwards `get-todos` lists no record with that id;
and a second delete of the same id succeeds again and leaves the state
unchanged (idempotence — deleting an absent id is a no-op). -/
theorem c4_delete_idempotent_echo {V : Type} (s : StoreState V) (todoId : String)
    (ht : s.tableReady = true) :
    (deleteTodo s todoId).1 =
      { success := true, id := some todoId, error := none } ∧
    ((getTodos (deleteTodo s todoId).2).1.todos.all
      (fun v => v.id != todoId)) = true ∧
    (deleteTodo (deleteTodo s todoId).2 todoId).1 =
      { success := true, id := some todoId, error := none } ∧
    (deleteTodo (deleteTodo s todoId).2 todoId).2 = (deleteTodo s todoId).2 := by
  have hs2 : (deleteTodo s todoId).2 =
      { s with rows := tableDeleteById s.rows todoId } := by
    simp [deleteTodo, ht]
  refine ⟨by simp [deleteTodo, ht], ?_, ?_, ?_⟩
  · rw [List.all_eq_true]
    intro v hv
    have ht2 : ((deleteTodo s todoId).2).tableReady = true := by
      rw [hs2]; exact ht
    obtain ⟨r, hr, rfl⟩ := mem_getTodos ht2 hv
    rw [hs2] at hr
    have h' := mem_tableDeleteById hr
    simpa [stripVector] using h'.2
  · rw [hs2]; simp [deleteTodo, ht]
  · rw [hs2]; simp [deleteTodo, ht, tableDeleteById_idem]

theorem c4_delete_idempotent_echo_witness :
    (deleteTodo demoState "a").1 =
      { success := true, id := some "a", error := none } ∧
    ((getTodos (deleteTodo demoState "a").2).1.todos.all
      (fun v => v.id != "a")) = true ∧
    (deleteTodo (deleteTodo demoState "a").2 "a").1 =
      { success := true, id := some "a", error := none } ∧
    (deleteTodo (deleteTodo demoState "a").2 "a").2 = (deleteTodo demoState "a").2 :=
  c4_delete_idempotent_echo demoState "a" rfl

/-- C5: updating an id with no live record succeeds (not rejected): the
delete phase matches nothing and is a no-op, and the append phase still
creates a new record under that id with the new text. -/
theorem c5_update_absent_creates {V : Type} (embed : String → V)
    (s : StoreState V) (todoId newText : String) (now : Int)
    (ht : s.tableReady = true) (he : s.embedderReady = true)
    (hne : newText ≠ "")
    (habsent : ∀ r ∈ s.rows, r.id ≠ todoId) :
    (updateTodo embed s todoId newText now).1 =
      { success := true,
        item := some { id := todoId, text := newText, timestamp := now },
        error := none } ∧
    tableDeleteById s.rows todoId = s.rows ∧
    ((updateTodo embed s todoId newText now).2).rows =
      s.rows ++ [{ id := todoId, text := newText, vector := embed newText,
                   timestamp := now }] := by
  have hno : tableDeleteById s.rows todoId = s.rows :=
    tableDeleteById_of_absent habsent
  refine ⟨by simp [updateTodo, ht, he], hno, ?_⟩
  simp [updateTodo, ht, he, tableAdd, hno]

theorem c5_update_absent_creates_witness :
    (updateTodo demoEmbed demoState "c" "new task" 7).1 =
      { success := true,
        item := some { id := "c", text := "new task", timestamp := 7 },
        error := none } ∧
    tableDeleteById demoRows "c" = demoRows ∧
    ((updateTodo demoEmbed demoState "c" "new task" 7).2).rows =
      demoRows ++ [{ id := "c", text := "new task", vector := demoEmbed "new task",
                     timestamp := 7 }] :=
  c5_update_absent_creates demoEmbed demoState "c" "new task" 7 rfl rfl
    (by decide) (by decide)

/-- C1: for an existing id and non-empty new text, `update-todo` deletes the
old row for that id and appends a fresh record with the same id, the new
text, a freshly embedded vector and the fresh timestamp; the returned item
is `{id, newText, newTimestamp}`; and a subsequent `get-todos` lists a
record with that id whose text is the new text, while no record under that
id carries any other text. -/
theorem c1_update_replaces_record {V : Type} (embed : String → V)
    (s : StoreState V) (todoId newText : String) (now : Int)
    (ht : s.tableReady = true) (he : s.embedderReady = true)
    (hne : newText ≠ "")
    (hex : ∃ r ∈ s.rows, r.id = todoId)
    (hlen : s.rows.length < 500) :
    (updateTodo embed s todoId newText now).1 =
      { success := true,
        item := some { id := todoId, text := newText, timestamp := now },
        error := none } ∧
    ((updateTodo embed s todoId newText now).2).rows =
      tableDeleteById s.rows todoId ++
        [{ id := todoId, text := newText, vector := embed newText,
           timestamp := now }] ∧
    ((getTodos (updateTodo embed s todoId newText now).2).1.todos.any
      (fun v => v == ({ id := todoId, text := newText, timestamp := now } :
        TodoView))) = true ∧
    ((getTodos (updateTodo embed s todoId newText now).2).1.todos.all
      (fun v => (v.id != todoId) || (v.text == newText))) = true := by
  have hrows : ((updateTodo embed s todoId newText now).2).rows =
      tableDeleteById s.rows todoId ++
        [{ id := todoId, text := newText, vector := embed newText,
           timestamp := now }] := by
    simp [updateTodo, ht, he, tableAdd]
  have ht2 : ((updateTodo embed s todoId newText now).2).tableReady = true := by
    rw [(updateTodo_flags embed s todoId newText now).2]; exact ht
  have hlen2 : ((updateTodo embed s todoId newText now).2).rows.length ≤ 500 := by
    rw [hrows]
    have h1 : (tableDeleteById s.rows todoId).length ≤ s.rows.length :=
      List.length_filter_le _ _
    simp only [List.length_append, List.length_singleton]
    omega
  refine ⟨by simp [updateTodo, ht, he], hrows, ?_, ?_⟩
  · rw [List.any_eq_true]
    refine ⟨{ id := todoId, text := newText, timestamp := now }, ?_, by simp⟩
    have hmem : (⟨todoId, newText, embed newText, now⟩ : TodoRecord V) ∈
        ((updateTodo embed s todoId newText now).2).rows := by
      rw [hrows]
      exact List.mem_append_right _ (List.mem_singleton_self _)
    exact mem_getTodos_of_mem_rows ht2 hlen2 hmem
  · rw [List.all_eq_true]
    intro v hv
    obtain ⟨r, hr, rfl⟩ := mem_getTodos ht2 hv
    rw [hrows] at hr
    rcases List.mem_append.mp hr with h | h
    · have h' := (mem_tableDeleteById h).2
      simp only [stripVector, Bool.or_eq_true, bne_iff_ne, ne_eq, beq_iff_eq]
      exact Or.inl h'
    · have h' := List.mem_singleton.mp h
      subst h'
      simp [stripVector]

theorem c1_update_replaces_record_witness :
    (updateTodo demoEmbed demoState "a" "buy oat milk" 10).1 =
      { success := true,
        item := some { id := "a", text := "buy oat milk", timestamp := 10 },
        error := none } ∧
    ((updateTodo demoEmbed demoState "a" "buy oat milk" 10).2).rows =
      tableDeleteById demoRows "a" ++
        [{ id := "a", text := "buy oat milk", vector := demoEmbed "buy oat milk",
           timestamp := 10 }] ∧
    ((getTodos (updateTodo demoEmbed demoState "a" "buy oat milk" 10).2).1.todos.any
      (fun v => v == ({ id := "a", text := "buy oat milk", timestamp := 10 } :
        TodoView))) = true ∧
    ((getTodos (updateTodo demoEmbed demoState "a" "buy oat milk" 10).2).1.todos.all
      (fun v => (v.id != "a") || (v.text == "buy oat milk"))) = true :=
  c1_update_replaces_record demoEmbed demoState "a" "buy oat milk" 10 rfl rfl
    (by decide) (by decide) (by decide)

/-- C3: when the table is assigned, `get-todos` succeeds, returns at most the
configured limit (500) of records, sorted by timestamp descending, each the
vector-free projection of a stored row; and the items returned by `add-todo`
and `update-todo` and every `search-todos` result are likewise vector-free
projections of stored data (vectors never reach callers). -/
theorem c3_list_sorted_no_vectors {V : Type} (embed : String → V)
    (dist : V → V → Int) (s : StoreState V) (i : String) (n : Int)
    (t query : String) (sd ed : Option String)
    (ht : s.tableReady = true) (he : s.embedderReady = true) :
    (getTodos s).1.success = true ∧
    (getTodos s).1.todos.length ≤ 500 ∧
    List.Sorted tsGe (getTodos s).1.todos ∧
    ((getTodos s).1.todos.all
      (fun v => s.rows.any (fun r => v == stripVector r))) = true ∧
    (addTodo embed s i n t).1.item =
      some { id := i, text := t, timestamp := n } ∧
    (updateTodo embed s i t n).1.item =
      some { id := i, text := t, timestamp := n } ∧
    ((searchTodos embed dist s query sd ed).1.results.all
      (fun v => s.rows.any (fun r =>
        v == { id := r.id, text := r.text, timestamp := r.timestamp,
               score := dist (embed query) r.vector }))) = true := by
  refine ⟨by simp [getTodos, ht], ?_, ?_, ?_, by simp [addTodo, ht, he],
          by simp [updateTodo, ht, he], ?_⟩
  · rw [getTodos_todos_eq ht, List.length_insertionSort, List.length_map]
    exact List.length_take_le _ _
  · rw [getTodos_todos_eq ht]
    exact List.sorted_insertionSort tsGe _
  · rw [List.all_eq_true]
    intro v hv
    obtain ⟨r, hr, rfl⟩ := mem_getTodos ht hv
    rw [List.any_eq_true]
    exact ⟨r, hr, by simp⟩
  · rw [List.all_eq_true]
    intro v hv
    by_cases hq : jsTrim query = ""
    · rw [searchTodos, if_pos (by simp [ht, he]), if_pos hq] at hv
      simp at hv
    · rw [searchTodos_results_eq ht he hq] at hv
      obtain ⟨p, hp, rfl⟩ := List.mem_map.mp hv
      have hm := mem_tableSearchNearest hp
      rw [List.any_eq_true]
      refine ⟨p.1, hm.1, ?_⟩
      rw [hm.2.2]
      simp

theorem c3_list_sorted_no_vectors_witness :
    (getTodos demoState).1.success = true ∧
    (getTodos demoState).1.todos.length ≤ 500 ∧
    List.Sorted tsGe (getTodos demoState).1.todos ∧
    ((getTodos demoState).1.todos.all
      (fun v => demoRows.any (fun r => v == stripVector r))) = true ∧
    (addTodo demoEmbed demoState "c" 7 "walk dog").1.item =
      some { id := "c", text := "walk dog", timestamp := 7 } ∧
    (updateTodo demoEmbed demoState "c" "walk dog" 7).1.item =
      some { id := "c", text := "walk dog", timestamp := 7 } ∧
    ((searchTodos demoEmbed demoDist demoState "milk" none none).1.results.all
      (fun v => demoRows.any (fun r =>
        v == { id := r.id, text := r.text, timestamp := r.timestamp,
               score := demoDist (demoEmbed "milk") r.vector }))) = true :=
  c3_list_sorted_no_vectors demoEmbed demoDist demoState "c" 7 "walk dog"
    "milk" none none rfl rfl

/-- C7: for a non-empty query, `search-todos` succeeds with at most 10
results, ordered ascending by the distance between the query embedding and
each stored vector; each result's `score` is that raw distance (taken from
a stored row); and no later result is strictly closer than an earlier one
(a strictly closer record appears first). -/
theorem c7_search_ascending_raw_distance {V : Type} (embed : String → V)
    (dist : V → V → Int) (s : StoreState V) (query : String)
    (sd ed : Option String)
    (ht : s.tableReady = true) (he : s.embedderReady = true)
    (hq : ¬ jsTrim query = "") :
    (searchTodos embed dist s query sd ed).1.success = true ∧
    (searchTodos embed dist s query sd ed).1.results.length ≤ 10 ∧
    List.Sorted svLe (searchTodos embed dist s query sd ed).1.results ∧
    List.Pairwise (fun a b : SearchView => ¬ b.score < a.score)
      (searchTodos embed dist s query sd ed).1.results ∧
    ((searchTodos embed dist s query sd ed).1.results.all
      (fun v => s.rows.any (fun r =>
        v == { id := r.id, text := r.text, timestamp := r.timestamp,
               score := dist (embed query) r.vector }))) = true := by
  have hres := @searchTodos_results_eq V embed dist s query sd ed ht he hq
  have hsorted : List.Sorted svLe (searchTodos embed dist s query sd ed).1.results := by
    rw [hres]
    exact (tableSearchNearest_sorted dist s.rows (embed query)
      (searchFilter (effStartMs sd) (effEndMs ed)) 10).map _ (fun a b h => h)
  refine ⟨by simp [searchTodos, ht, he, hq], ?_, hsorted, ?_, ?_⟩
  · rw [hres, List.length_map]
    exact tableSearchNearest_length dist s.rows (embed query)
      (searchFilter (effStartMs sd) (effEndMs ed)) 10
  · exact hsorted.imp (fun h => not_lt.mpr h)
  · rw [List.all_eq_true]
    intro v hv
    rw [hres] at hv
    obtain ⟨p, hp, rfl⟩ := List.mem_map.mp hv
    have hm := mem_tableSearchNearest hp
    rw [List.any_eq_true]
    refine ⟨p.1, hm.1, ?_⟩
    rw [hm.2.2]
    simp

theorem c7_search_ascending_raw_distance_witness :
    (searchTodos demoEmbed demoDist demoState "milk" none none).1.success = true ∧
    (searchTodos demoEmbed demoDist demoState "milk" none none).1.results.length ≤ 10 ∧
    List.Sorted svLe (searchTodos demoEmbed demoDist demoState "milk" none none).1.results ∧
    List.Pairwise (fun a b : SearchView => ¬ b.score < a.score)
      (searchTodos demoEmbed demoDist demoState "milk" none none).1.results ∧
    ((searchTodos demoEmbed demoDist demoState "milk" none none).1.results.all
      (fun v => demoRows.any (fun r =>
        v == { id := r.id, text := r.text, timestamp := r.timestamp,
               score := demoDist (demoEmbed "milk") r.vector }))) = true :=
  c7_search_ascending_raw_distance demoEmbed demoDist demoState "milk" none none
    rfl rfl (by decide)

/-- C6: the `where` predicate built from date bounds is the conjunction
`timestamp >= startMs AND timestamp <= endMs` with either side omittable;
`startMs` is midnight of the start date and `endMs` the last millisecond of
the end date (both bounds inclusive); so for three records on distinct
calendar days with T1 < T2 < T3, searching with startDate = endDate = the
day of T2 returns only the record at T2. -/
theorem c6_date_filter_inclusive {V : Type} (embed : String → V)
    (dist : V → V → Int) (s : StoreState V) (query d : String) (sm : Int)
    (r1 r2 r3 rx : TodoRecord V) (sa ea : Int)
    (ht : s.tableReady = true) (he : s.embedderReady = true)
    (hq : ¬ jsTrim query = "")
    (hd : startOfDayMs d = some sm)
    (hrows : s.rows = [r1, r2, r3])
    (h1 : r1.timestamp < sm)
    (h2a : sm ≤ r2.timestamp) (h2b : r2.timestamp ≤ sm + 86399999)
    (h3 : sm + 86399999 < r3.timestamp) :
    searchFilter (some sa) (some ea) rx =
      (decide (sa ≤ rx.timestamp) && decide (rx.timestamp ≤ ea)) ∧
    searchFilter (some sa) none rx = decide (sa ≤ rx.timestamp) ∧
    searchFilter none (some ea) rx = (decide (rx.timestamp ≤ ea) : Bool) ∧
    searchFilter none none rx = true ∧
    endOfDayMs d = some (sm + 86399999) ∧
    (searchTodos embed dist s query (some d) (some d)).1 =
      { success := true,
        results := [⟨r2.id, r2.text, r2.timestamp, dist (embed query) r2.vector⟩],
        error := none } := by
  have hend : endOfDayMs d = some (sm + 86399999) := by
    unfold startOfDayMs at hd
    unfold endOfDayMs
    cases hp : parseYmd d with
    | none => rw [hp] at hd; simp at hd
    | some tr =>
      rw [hp] at hd
      simp only [Option.map_some', Option.some.injEq] at hd ⊢
      omega
  have hdne : ¬ d = "" := by
    intro h
    have h0 : startOfDayMs "" = none := rfl
    rw [h, h0] at hd
    exact Option.noConfusion hd
  have heS : effStartMs (some d) = some sm := by simp [effStartMs, hdne, hd]
  have heE : effEndMs (some d) = some (sm + 86399999) := by
    simp [effEndMs, hdne, hend]
  have hf1 : searchFilter (some sm) (some (sm + 86399999)) r1 = false := by
    simp only [searchFilter]
    rw [decide_eq_false (not_le.mpr h1)]
    simp
  have hf2 : searchFilter (some sm) (some (sm + 86399999)) r2 = true := by
    simp only [searchFilter]
    rw [decide_eq_true h2a, decide_eq_true h2b]
    simp
  have hf3 : searchFilter (some sm) (some (sm + 86399999)) r3 = false := by
    simp only [searchFilter]
    rw [decide_eq_false (not_le.mpr h3)]
    simp
  have hres6 : (searchTodos embed dist s query (some d) (some d)).1.results =
      [⟨r2.id, r2.text, r2.timestamp, dist (embed query) r2.vector⟩] := by
    rw [@searchTodos_results_eq V embed dist s query (some d) (some d) ht he hq,
        heS, heE, hrows]
    have hfil : [r1, r2, r3].filter (searchFilter (some sm) (some (sm + 86399999))) =
        [r2] := by
      simp [List.filter_cons, hf1, hf2, hf3]
    unfold tableSearchNearest
    rw [hfil]
    simp [List.insertionSort, List.orderedInsert]
  have hsucc : (searchTodos embed dist s query (some d) (some d)).1.success = true := by
    simp [searchTodos, ht, he, hq]
  have herr : (searchTodos embed dist s query (some d) (some d)).1.error = none := by
    simp [searchTodos, ht, he, hq]
  refine ⟨rfl, by simp [searchFilter], by simp [searchFilter], rfl, hend, ?_⟩
  have heta : (searchTodos embed dist s query (some d) (some d)).1 =
      ⟨(searchTodos embed dist s query (some d) (some d)).1.success,
       (searchTodos embed dist s query (some d) (some d)).1.results,
       (searchTodos embed dist s query (some d) (some d)).1.error⟩ := rfl
  rw [heta, hsucc, hres6, herr]

theorem c6_date_filter_inclusive_witness :
    searchFilter (some 5) (some 9) dayr1 =
      (decide ((5 : Int) ≤ dayr1.timestamp) && decide (dayr1.timestamp ≤ (9 : Int))) ∧
    searchFilter (some 5) none dayr1 = decide ((5 : Int) ≤ dayr1.timestamp) ∧
    searchFilter none (some 9) dayr1 = (decide (dayr1.timestamp ≤ (9 : Int)) : Bool) ∧
    searchFilter none none dayr1 = true ∧
    endOfDayMs "2024-01-15" = some (1705276800000 + 86399999) ∧
    (searchTodos demoEmbed demoDist dayState "milk" (some "2024-01-15")
        (some "2024-01-15")).1 =
      { success := true,
        results := [⟨dayr2.id, dayr2.text, dayr2.timestamp,
                     demoDist (demoEmbed "milk") dayr2.vector⟩],
        error := none } :=
  c6_date_filter_inclusive demoEmbed demoDist dayState "milk" "2024-01-15"
    1705276800000 dayr1 dayr2 dayr3 dayr1 5 9 rfl rfl (by decide) (by decide)
    rfl (by decide) (by decide) (by decide) (by decide)

/-- C8: in any reachable state in which the table handle is unassigned,
each of the five operations returns its tagged not-ready failure result
(no exception is modelled — the functions are total); in any reachable
state an assigned table implies an assigned embedder (the embedder is
assigned first during initialization); and once the table is assigned,
every state reached by further lifecycle steps keeps both handles, and
none of the five operations returns an error there. -/
theorem c8_initialization_gate {V : Type} (embed : String → V)
    (dist : V → V → Int) (s s' : StoreState V) (i : String) (n : Int)
    (t q : String) (sd ed : Option String)
    (hreach : Reachable embed dist s)
    (hsteps : Reaches embed dist s s') :
    (s.tableReady = false →
      (addTodo embed s i n t).1 =
        { success := false, item := none, error := some notReadyBothMsg } ∧
      (getTodos s).1 =
        { success := false, todos := [], error := some notReadyTableMsg } ∧
      (searchTodos embed dist s q sd ed).1 =
        { success := false, results := [], error := some notReadyBothMsg } ∧
      (updateTodo embed s i t n).1 =
        { success := false, item := none, error := some notReadyBothMsg } ∧
      (deleteTodo s i).1 =
        { success := false, id := none, error := some notReadyTableMsg }) ∧
    (s.tableReady = true → s.embedderReady = true) ∧
    (s.tableReady = true →
      s'.tableReady = true ∧ s'.embedderReady = true ∧
      (addTodo embed s' i n t).1.error = none ∧
      (getTodos s').1.error = none ∧
      (searchTodos embed dist s' q sd ed).1.error = none ∧
      (updateTodo embed s' i t n).1.error = none ∧
      (deleteTodo s' i).1.error = none) := by
  refine ⟨?_, reachable_table_imp_embedder hreach, ?_⟩
  · intro hf
    exact ⟨by simp [addTodo, hf], by simp [getTodos, hf],
           by simp [searchTodos, hf], by simp [updateTodo, hf],
           by simp [deleteTodo, hf]⟩
  · intro ht
    have he := reachable_table_imp_embedder hreach ht
    have hkeep : s'.tableReady = true ∧ s'.embedderReady = true := by
      induction hsteps with
      | refl => exact ⟨ht, he⟩
      | tail h1 h2 ih => exact ⟨(storeStep_mono h2).2 ih.1, (storeStep_mono h2).1 ih.2⟩
    refine ⟨hkeep.1, hkeep.2, ?_, ?_, ?_, ?_, ?_⟩
    · simp [addTodo, hkeep.1, hkeep.2]
    · simp [getTodos, hkeep.1]
    · by_cases hq : jsTrim q = "" <;> simp [searchTodos, hkeep.1, hkeep.2, hq]
    · simp [updateTodo, hkeep.1, hkeep.2]
    · simp [deleteTodo, hkeep.1]

theorem c8_initialization_gate_witness :
    (addTodo demoEmbed (initialState Nat) "a" 0 "t").1 =
      { success := false, item := none, error := some notReadyBothMsg } ∧
    (getTodos (initialState Nat)).1 =
      { success := false, todos := [], error := some notReadyTableMsg } ∧
    (searchTodos demoEmbed demoDist (initialState Nat) "q" none none).1 =
      { success := false, results := [], error := some notReadyBothMsg } ∧
    (updateTodo demoEmbed (initialState Nat) "a" "t" 0).1 =
      { success := false, item := none, error := some notReadyBothMsg } ∧
    (deleteTodo (initialState Nat) "a").1 =
      { success := false, id := none, error := some notReadyTableMsg } ∧
    (addTodo demoEmbed readyState "a" 0 "t").1.error = none ∧
    (getTodos readyState).1.error = none ∧
    (searchTodos demoEmbed demoDist readyState "q" none none).1.error = none ∧
    (updateTodo demoEmbed readyState "a" "t" 0).1.error = none ∧
    (deleteTodo readyState "a").1.error = none := by
  have hchain : Reaches demoEmbed demoDist (initialState Nat) readyState :=
    Reaches.tail (Reaches.tail (Reaches.refl _) (StoreStep.assignEmbedder _))
      (StoreStep.assignTable _ rfl)
  have h1 := c8_initialization_gate demoEmbed demoDist (initialState Nat)
    (initialState Nat) "a" 0 "t" "q" none none (Reaches.refl _) (Reaches.refl _)
  have h2 := c8_initialization_gate demoEmbed demoDist readyState readyState
    "a" 0 "t" "q" none none hchain (Reaches.refl _)
  obtain ⟨ha, hb, hc, hd, he⟩ := h1.1 rfl
  obtain ⟨-, -, h2a, h2b, h2c, h2d, h2e⟩ := h2.2.2 rfl
  exact ⟨ha, hb, hc, hd, he, h2a, h2b, h2c, h2d, h2e⟩

theorem effStartMs_none : effStartMs none = none := rfl

theorem effEndMs_none : effEndMs none = none := rfl

theorem clickAddTodo_rows_sub {V : Type} (embed : String → V) (s : StoreState V)
    (i : String) (n : Int) (input : String) {r : TodoRecord V}
    (hr : r ∈ (clickAddTodo embed s i n input).rows) :
    r ∈ s.rows ∨ (r.text = jsTrim input ∧ jsTrim input ≠ "") := by
  simp only [clickAddTodo] at hr
  split at hr
  · exact Or.inl hr
  · rename_i h0
    simp only [addTodo] at hr
    split at hr
    · simp only [tableAdd, List.mem_append, List.mem_singleton] at hr
      rcases hr with h | h
      · exact Or.inl h
      · subst h
        exact Or.inr ⟨rfl, h0⟩
    · exact Or.inl hr

theorem clickUpdateTodo_rows_sub {V : Type} (embed : String → V)
    (s : StoreState V) (eid input : String) (orig : Option String) (n : Int)
    {r : TodoRecord V}
    (hr : r ∈ (clickUpdateTodo embed s eid input orig n).rows) :
    r ∈ s.rows ∨ (r.text = jsTrim input ∧ jsTrim input ≠ "") := by
  simp only [clickUpdateTodo] at hr
  split at hr
  · exact Or.inl hr
  · rename_i h0
    have hne : jsTrim input ≠ "" := fun h => h0 (Or.inr h)
    split at hr
    · exact Or.inl hr
    · simp only [updateTodo] at hr
      split at hr
      · simp only [tableAdd, List.mem_append, List.mem_singleton] at hr
        rcases hr with h | h
        · exact Or.inl (mem_tableDeleteById h).1
        · subst h
          exact Or.inr ⟨rfl, hne⟩
      · exact Or.inl hr

/-- Every demo text is non-empty: it starts with the literal
`Demo task `. -/
theorem seedText_ne_empty (i : Nat) (kw : String) : ¬ seedText i kw = "" := by
  intro h
  have hl : (seedText i kw).length = 0 := by rw [h]; rfl
  unfold seedText at hl
  rw [String.length_append, String.length_append, String.length_append,
      String.length_append, String.length_append] at hl
  have h10 : ("Demo task " : String).length = 10 := rfl
  rw [h10] at hl
  omega

theorem seedDemoData_rows_sub {V : Type} (embed : String → V)
    (s : StoreState V) (ids kws : Nat → String) (times : Nat → Int)
    {r : TodoRecord V}
    (hr : r ∈ ((seedDemoData embed s ids kws times).2).rows) :
    r ∈ s.rows ∨ ∃ i, r.text = seedText i (kws i) := by
  simp only [seedDemoData] at hr
  split at hr
  · simp only [tableAdd, List.mem_append] at hr
    rcases hr with h | h
    · exact Or.inl h
    · obtain ⟨i, _, rfl⟩ := List.mem_map.mp h
      exact Or.inr ⟨i, rfl⟩
  · exact Or.inl hr

/-- In any state reachable through the renderer's entry points (guarded add
and update, delete, seeding), no live record carries empty text. -/
theorem appReachable_texts {V : Type} {embed : String → V} {s : StoreState V}
    (h : AppReachable embed s) : ∀ r ∈ s.rows, ¬ r.text = "" := by
  induction h with
  | init => intro r hr; exact absurd hr (by simp [initialState])
  | tail h1 h2 ih =>
    intro r hr
    cases h2 with
    | assignEmbedder => exact ih r hr
    | assignTable h => exact ih r hr
    | uiAdd i n input =>
      rcases clickAddTodo_rows_sub embed _ i n input hr with h | h
      · exact ih r h
      · rw [h.1]; exact h.2
    | uiUpdate eid input orig n =>
      rcases clickUpdateTodo_rows_sub embed _ eid input orig n hr with h | h
      · exact ih r h
      · rw [h.1]; exact h.2
    | uiDelete i =>
      refine ih r ?_
      simp only [deleteTodo] at hr
      split at hr
      · exact (mem_tableDeleteById hr).1
      · exact hr
    | uiSeed ids kws times =>
      rcases seedDemoData_rows_sub embed _ ids kws times hr with h | ⟨i, hi⟩
      · exact ih r h
      · rw [hi]; exact seedText_ne_empty i (kws i)

/-- C9: in every table state reachable through the application (where empty
submissions are rejected by the renderer before reaching the store), no
live record has an empty text: neither add nor update ever persists a
record whose text is the empty string. -/
theorem c9_no_empty_text {V : Type} (embed : String → V) (s : StoreState V)
    (h : AppReachable embed s) :
    (s.rows.all (fun r => !(r.text == ""))) = true := by
  rw [List.all_eq_true]
  intro r hr
  simpa using appReachable_texts h r hr

theorem c9_no_empty_text_witness :
    (((seedDemoData demoEmbed
        (clickAddTodo demoEmbed readyState "a" 5 " buy milk ")
        (fun i => toString i) (fun _ => "kw1") (fun _ => 0)).2).rows.all
      (fun r => !(r.text == ""))) = true :=
  c9_no_empty_text demoEmbed _
    (AppReachable.tail (AppReachable.tail (AppReachable.tail (AppReachable.tail
      AppReachable.init (AppStep.assignEmbedder _)) (AppStep.assignTable _ rfl))
      (AppStep.uiAdd _ "a" 5 " buy milk "))
      (AppStep.uiSeed _ (fun i => toString i) (fun _ => "kw1") (fun _ => 0)))

/-- C10: a supplied date bound whose parse yields an invalid timestamp
(`NaN`) is silently dropped from the filter: the search behaves exactly as
if that bound had not been given (the other bound still applies), and it
succeeds. -/
theorem c10_invalid_date_bound_omitted {V : Type} (embed : String → V)
    (dist : V → V → Int) (s : StoreState V) (query : String)
    (sdBad edBad : String) (other : Option String)
    (ht : s.tableReady = true) (he : s.embedderReady = true)
    (hq : ¬ jsTrim query = "")
    (hsBad : startOfDayMs sdBad = none)
    (heBad : endOfDayMs edBad = none) :
    searchTodos embed dist s query (some sdBad) other =
      searchTodos embed dist s query none other ∧
    searchTodos embed dist s query other (some edBad) =
      searchTodos embed dist s query other none ∧
    (searchTodos embed dist s query (some sdBad) (some edBad)).1.success = true := by
  have hS := effStartMs_of_invalid hsBad
  have hE := effEndMs_of_invalid heBad
  refine ⟨?_, ?_, ?_⟩
  · simp only [searchTodos, hS, effStartMs_none]
  · simp only [searchTodos, hE, effEndMs_none]
  · simp [searchTodos, ht, he, hq]

theorem c10_invalid_date_bound_omitted_witness :
    searchTodos demoEmbed demoDist demoState "milk" (some "not-a-date") none =
      searchTodos demoEmbed demoDist demoState "milk" none none ∧
    searchTodos demoEmbed demoDist demoState "milk" none (some "2024-99-99") =
      searchTodos demoEmbed demoDist demoState "milk" none none ∧
    (searchTodos demoEmbed demoDist demoState "milk" (some "not-a-date")
        (some "2024-99-99")).1.success = true :=
  c10_invalid_date_bound_omitted demoEmbed demoDist demoState "milk"
    "not-a-date" "2024-99-99" none rfl rfl (by decide) (by decide) (by decide)

end TodoStore
